import Mathlib

/-!
Shallow embedding of `engine.py` from the 3dprint-image-translation
repository: the training / evaluation / generation control loop of a
conditional image-to-image GAN.

Networks, optimizers, schedulers and the logging sink are external
collaborators; they are embedded as explicit state records, and their
opaque numeric behaviour (the generator forward function, the
discriminator score, the three loss callables, the aggregate metrics) as
abstract function fields of an environment record.  Tensors in the
training step are carried together with a flag recording whether a
gradient path to the generator's parameters exists (`detach` clears it);
tensor values themselves are opaque elements of a type parameter `V`.
In the inference drivers (`evaluate`, `generate`) a batch is a list of
per-sample values in `ℚ`, so that concatenation, rescaling and
per-sample metrics are concrete.
-/

namespace Engine

/-- A network: the per-parameter `requires_grad` flags and the
training-mode flag.  Parameter values are opaque (they are mutated only
by the optimizers, which are external collaborators). -/
structure Net where
  paramsRG : List Bool
  training : Bool
deriving DecidableEq

/-- Optimizer state: counters for `zero_grad` and `step` calls, and the
current learning rate of its (single) parameter group. -/
structure OptimState where
  zeroCount : Nat
  stepCount : Nat
  lr : ℚ
deriving DecidableEq

/-- Scheduler state: the monotonic step counter. -/
structure SchedState where
  stepCount : Nat
deriving DecidableEq

/-- One entry accepted by the logging sink (tensorboard `SummaryWriter`):
a named scalar, image or histogram, keyed by an integer step. -/
inductive LogEvent where
  | scalar : String → ℚ → Nat → LogEvent
  | image : String → Nat → LogEvent
  | histogram : String → Nat → LogEvent
deriving DecidableEq

/-- The step key of a log event. -/
def LogEvent.stepOf : LogEvent → Nat
  | .scalar _ _ s => s
  | .image _ s => s
  | .histogram _ s => s

/-- Argument to `set_requires_grad`: the Python function accepts either a
single (possibly null) network or a list of them. -/
inductive NetsArg where
  | one : Option Net → NetsArg
  | many : List (Option Net) → NetsArg

/-- Normalisation performed by `if not isinstance(nets, list): nets = [nets]`. -/
def NetsArg.toList : NetsArg → List (Option Net)
  | .one n => [n]
  | .many l => l

/-- Core of `set_requires_grad` on one network:
`for param in net.parameters(): param.requires_grad = requires_grad`. -/
def set_param_requires_grad (net : Net) (rg : Bool) : Net :=
  { net with paramsRG := net.paramsRG.map fun _ => rg }

/-- `engine.set_requires_grad(nets, requires_grad)`: wraps a non-list
argument into a one-element list, skips `None` entries, and sets every
parameter's `requires_grad` flag of each remaining network.  The Python
function mutates in place; here the updated networks are returned. -/
def set_requires_grad (nets : NetsArg) (requires_grad : Bool) : List (Option Net) :=
  nets.toList.map (Option.map (fun net => set_param_requires_grad net requires_grad))

/-- Abstract environment for the training loop: the opaque collaborators
of `train_one_epoch` (generator / discriminator forward functions over
opaque tensor values `V`, the three loss callables, the generator's
condition-embedding table). -/
structure TrainEnv (V : Type) where
  catv : V → V → V
  Gf : V → V → V
  Df : V → V → V → ℚ
  emb : V
  adv : ℚ → Bool → ℚ
  l1v : V → V → ℚ
  vggv : V → V → ℚ

/-- A tensor value paired with a flag: does a gradient path to the
generator's parameters run through it?  `detach` clears the flag. -/
structure TTensor (V : Type) where
  val : V
  gradG : Bool

/-- A scalar loss value, with the generator-gradient-path flag. -/
structure LVal where
  val : ℚ
  gradG : Bool

/-- `tensor.detach()`: same value, gradient path severed. -/
def tdetach {V : Type} (t : TTensor V) : TTensor V :=
  { t with gradG := false }

/-- `torch.cat((a, b), 1)`: channel concatenation; a gradient path exists
iff one exists through either input. -/
def tcat {V : Type} (env : TrainEnv V) (a b : TTensor V) : TTensor V :=
  ⟨env.catv a.val b.val, a.gradG || b.gradG⟩

/-- `G(real_A, cond)`: the generator forward; its output has a gradient
path to G's parameters. -/
def gen_forward {V : Type} (env : TrainEnv V) (a c : TTensor V) : TTensor V :=
  ⟨env.Gf a.val c.val, true⟩

/-- `D(x, cond, G.condition_embedding.embeddings)`: the discriminator
forward; the score inherits any gradient path of its inputs. -/
def disc_forward {V : Type} (env : TrainEnv V) (x c : TTensor V) : LVal :=
  ⟨env.Df x.val c.val env.emb, x.gradG || c.gradG⟩

/-- `adv_loss(pred, target_label)`. -/
def adv_forward {V : Type} (env : TrainEnv V) (p : LVal) (lbl : Bool) : LVal :=
  ⟨env.adv p.val lbl, p.gradG⟩

/-- `l1_loss(fake_B, real_B)`. -/
def l1_forward {V : Type} (env : TrainEnv V) (a b : TTensor V) : LVal :=
  ⟨env.l1v a.val b.val, a.gradG || b.gradG⟩

/-- `vgg_loss(fake_B, real_B)`. -/
def vgg_forward {V : Type} (env : TrainEnv V) (a b : TTensor V) : LVal :=
  ⟨env.vggv a.val b.val, a.gradG || b.gradG⟩

/-- Loss addition. -/
def ladd (a b : LVal) : LVal :=
  ⟨a.val + b.val, a.gradG || b.gradG⟩

/-- Loss scaling by a scalar (on the right, as in the source). -/
def lsmul (a : LVal) (c : ℚ) : LVal :=
  ⟨a.val * c, a.gradG⟩

/-- `optim.zero_grad()`. -/
def zero_grad (o : OptimState) : OptimState :=
  { o with zeroCount := o.zeroCount + 1 }

/-- `optim.step()`. -/
def opt_step (o : OptimState) : OptimState :=
  { o with stepCount := o.stepCount + 1 }

/-- `sched.step()`. -/
def sched_step (s : SchedState) : SchedState :=
  { s with stepCount := s.stepCount + 1 }

/-- The configuration bundle `args` (fields read by `engine.py`). -/
structure Args where
  n_epochs : Nat
  total_epochs : Nat
  log_freq : Nat
  display_freq : Nat
  lambda_VGG : ℚ
  lambda_L1 : ℚ

/-- One training batch `(real_A, real_B, cond)` of opaque tensor values. -/
structure BatchT (V : Type) where
  real_A : V
  real_B : V
  cond : V

/-- The mutable state threaded through `train_one_epoch`: both networks,
both optimizers, both schedulers, and the logging sink's contents. -/
structure TState (V : Type) where
  Gnet : Net
  Dnet : Net
  optimG : OptimState
  optimD : OptimState
  schedG : SchedState
  schedD : SchedState
  log : List LogEvent

/-- The seven per-step loss tensors of the loop body of
`train_one_epoch` (`loss_D_fake`, `loss_D_real`, `loss_D`, `loss_G_GAN`,
`loss_G_VGG`, `loss_G_L1`, `loss_G`). -/
structure StepLosses where
  loss_D_fake : LVal
  loss_D_real : LVal
  loss_D : LVal
  loss_G_GAN : LVal
  loss_G_VGG : LVal
  loss_G_L1 : LVal
  loss_G : LVal

/-- One full alternating discriminator-then-generator update on a batch:
the loop body of `train_one_epoch` (`engine.py` lines 32–62), up to but
not including the logging code.  Returns the step losses and the updated
state. -/
def train_step {V : Type} (env : TrainEnv V) (args : Args) (st : TState V)
    (b : BatchT V) : StepLosses × TState V :=
  let real_A : TTensor V := ⟨b.real_A, false⟩
  let real_B : TTensor V := ⟨b.real_B, false⟩
  let cond : TTensor V := ⟨b.cond, false⟩
  let fake_B := gen_forward env real_A cond
  let D1 := set_param_requires_grad st.Dnet true
  let optimD1 := zero_grad st.optimD
  let fake_AB := tcat env real_A fake_B
  let pred_fake := disc_forward env (tdetach fake_AB) cond
  let loss_D_fake := adv_forward env pred_fake false
  let real_AB := tcat env real_A real_B
  let pred_real := disc_forward env (tdetach real_AB) cond
  let loss_D_real := adv_forward env pred_real true
  let loss_D := lsmul (ladd loss_D_fake loss_D_real) (0.5 : ℚ)
  let optimD2 := opt_step optimD1
  let D2 := set_param_requires_grad D1 false
  let optimG1 := zero_grad st.optimG
  let fake_AB2 := tcat env real_A fake_B
  let pred_fake2 := disc_forward env fake_AB2 cond
  let loss_G_GAN := adv_forward env pred_fake2 true
  let loss_G_VGG := lsmul (vgg_forward env fake_B real_B) args.lambda_VGG
  let loss_G_L1 := lsmul (l1_forward env fake_B real_B) args.lambda_L1
  let loss_G := ladd (ladd loss_G_GAN loss_G_VGG) loss_G_L1
  let optimG2 := opt_step optimG1
  (⟨loss_D_fake, loss_D_real, loss_D, loss_G_GAN, loss_G_VGG, loss_G_L1, loss_G⟩,
   { st with Dnet := D2, optimD := optimD2, optimG := optimG2 })

/-- The losses computed by `train_step` as a pure function of the batch
(the opaque network functions live in `env`, so the losses do not depend
on the threaded state). -/
def train_losses {V : Type} (env : TrainEnv V) (args : Args) (b : BatchT V) :
    StepLosses :=
  (train_step env args
    ⟨⟨[], true⟩, ⟨[], true⟩, ⟨0, 0, 0⟩, ⟨0, 0, 0⟩, ⟨0⟩, ⟨0⟩, []⟩ b).1

/-- `global_step = (epoch - 1) * len(train_loader) + iter`. -/
def global_step (epoch T iter : Nat) : Nat :=
  (epoch - 1) * T + iter

/-- The seven `add_scalar` calls of the logging block (`engine.py`
lines 77–84), in source order. -/
def scalar_block (L : StepLosses) (lrG lrD : ℚ) (gs : Nat) : List LogEvent :=
  [.scalar "G/adversarial" L.loss_G_GAN.val gs,
   .scalar "G/vgg" L.loss_G_VGG.val gs,
   .scalar "G/l1" L.loss_G_L1.val gs,
   .scalar "G/lr" lrG gs,
   .scalar "D/real" L.loss_D_real.val gs,
   .scalar "D/fake" L.loss_D_fake.val gs,
   .scalar "D/lr" lrD gs]

/-- The three `add_image` calls of the snapshot block (`engine.py`
lines 87–89). -/
def image_block (gs : Nat) : List LogEvent :=
  [.image "images/src" gs, .image "images/dst" gs, .image "images/gen" gs]

/-- One iteration of the `for iter, (real_A, real_B, cond) in
enumerate(train_loader, 1)` loop: the training step followed by the
conditional scalar logging and image snapshotting. -/
def epoch_iter {V : Type} (env : TrainEnv V) (args : Args) (epoch T : Nat)
    (st : TState V) (p : Nat × BatchT V) : TState V :=
  let iter := p.1
  let res := train_step env args st p.2
  let L := res.1
  let st1 := res.2
  let gs := global_step epoch T iter
  let st2 := if iter % args.log_freq == 0 || iter == T then
      { st1 with log := st1.log ++ scalar_block L st1.optimG.lr st1.optimD.lr gs }
    else st1
  if iter % args.display_freq == 0 then
    { st2 with log := st2.log ++ image_block gs }
  else st2

/-- The pre-loop part of `train_one_epoch`: `G.train()`, `D.train()`, and
the warm-up-gated scheduler advancement. -/
def epoch_setup {V : Type} (st : TState V) (epoch : Nat) (args : Args) :
    TState V :=
  let st1 := { st with Gnet := { st.Gnet with training := true },
                       Dnet := { st.Dnet with training := true } }
  if epoch > args.n_epochs then
    { st1 with schedG := sched_step st1.schedG, schedD := sched_step st1.schedD }
  else st1

/-- `engine.train_one_epoch`: training-mode setup, warm-up-gated
scheduler stepping, then the batch loop with 1-indexed iteration
counter. -/
def train_one_epoch {V : Type} (env : TrainEnv V) (args : Args) (st : TState V)
    (loader : List (BatchT V)) (epoch : Nat) : TState V :=
  (List.enumFrom 1 loader).foldl (epoch_iter env args epoch loader.length)
    (epoch_setup st epoch args)

/-- The log entries one loop iteration is expected to append, written
from the spec's words: every `log_freq` batches and unconditionally on
the final batch, the five scalar losses plus both learning rates keyed
by the global step; every `display_freq` batches, the three image grids
keyed by the global step. -/
def spec_iter_logs {V : Type} (env : TrainEnv V) (args : Args) (epoch T : Nat)
    (lrG lrD : ℚ) (p : Nat × BatchT V) : List LogEvent :=
  let i := p.1
  let gs := (epoch - 1) * T + i
  (if i % args.log_freq == 0 || i == T then
      scalar_block (train_losses env args p.2) lrG lrD gs
    else []) ++
  (if i % args.display_freq == 0 then image_block gs else [])

/-- The log entries a whole epoch is expected to append, written from
the spec's words: the per-iteration entries in order, for the 1-indexed
iteration counter. -/
def spec_epoch_logs {V : Type} (env : TrainEnv V) (args : Args) (epoch : Nat)
    (lrG lrD : ℚ) (loader : List (BatchT V)) : List LogEvent :=
  ((List.enumFrom 1 loader).map
    (spec_iter_logs env args epoch loader.length lrG lrD)).flatten

/-- Abstract environment for the inference drivers: the generator as a
per-sample function, and the two metric aggregates.  `mean_pixel_loss`
and the per-sample CRI error live in `metric.py`, which is not part of
the embedded source; they are opaque interface functions here. -/
structure GenEnv where
  Gs : ℚ → ℚ → ℚ
  mean_pixel_loss : List ℚ → List ℚ → ℚ
  cri_sample : ℚ → ℚ → ℚ

/-- Mean of a list of rationals. -/
def qmean (l : List ℚ) : ℚ :=
  l.sum / l.length

/-- Modelled from the spec: `metric.mean_absolute_cri_error` is not under
the embedded source tree; per its interface contract it returns an
aggregate perceptual-difference scalar together with a per-sample error
array, one entry per sample pair, positionally.  The per-sample error is
the opaque `cri_sample` and the aggregate its mean. -/
def mean_absolute_cri_error (env : GenEnv) (a b : List ℚ) : ℚ × List ℚ :=
  let errs := List.zipWith env.cri_sample a b
  (qmean errs, errs)

/-- An evaluation batch `(src, dst, cond)`: lists of per-sample values
sharing the leading dimension. -/
structure EvalBatch where
  src : List ℚ
  dst : List ℚ
  cond : List ℚ

/-- The observable outcome of `engine.evaluate`: the two aggregates, the
per-sample error array, the printed below-threshold count and its
denominator, the emitted log entries, and the returned pair. -/
structure EvalResult where
  pix_error : ℚ
  cri_error : ℚ
  cri_error_array : List ℚ
  below_count : Nat
  total_reported : Nat
  logs : List LogEvent
  returned : ℚ × ℚ

/-- The inference pass of `engine.evaluate`: the generated outputs of
every batch, concatenated in iteration order and rescaled from [-1,1]
to [0,255].  `.squeeze()` only removes singleton shape dimensions and
is the identity in this per-sample-list embedding. -/
def eval_fake_images (env : GenEnv) (loader : List EvalBatch) : List ℚ :=
  ((loader.map fun b => List.zipWith env.Gs b.src b.cond).flatten).map
    fun x => (x + 1) * 0.5 * 255

/-- The concatenated, [0,255]-rescaled reference outputs of `evaluate`. -/
def eval_true_images (loader : List EvalBatch) : List ℚ :=
  ((loader.map fun b => b.dst).flatten).map fun x => (x + 1) * 0.5 * 255

/-- `engine.evaluate`: runs `G` over every batch, concatenates generated
and reference outputs in iteration order, rescales both from [-1,1] to
[0,255], computes the two metrics, logs them keyed by the epoch, counts
the samples with per-sample error strictly below 20, and returns the two
aggregates.  `dataset_len` stands for `len(data_loader.dataset)`. -/
def evaluate (env : GenEnv) (loader : List EvalBatch) (dataset_len : Nat)
    (epoch : Nat) : EvalResult :=
  let fake_images := eval_fake_images env loader
  let true_images := eval_true_images loader
  let pix_error := env.mean_pixel_loss fake_images true_images
  let res := mean_absolute_cri_error env fake_images true_images
  let cri_error := res.1
  let cri_error_array := res.2
  { pix_error := pix_error
    cri_error := cri_error
    cri_error_array := cri_error_array
    below_count := cri_error_array.countP fun x => decide (x < 20)
    total_reported := dataset_len
    logs := [.scalar "metric/pixel loss" pix_error epoch,
             .scalar "metric/cri_error" cri_error epoch,
             .histogram "metric/cri_error_hist" epoch]
    returned := (pix_error, cri_error) }

/-- A generation batch `(src, cond)`: lists of per-sample values. -/
structure GenBatch where
  src : List ℚ
  cond : List ℚ

/-- `os.path.basename`: the component after the last path separator. -/
def basename (s : String) : String :=
  (s.splitOn "/").getLastD ""

/-- `os.path.join(args.output_dir, name)` for a relative `name`. -/
def path_join (dir name : String) : String :=
  dir ++ "/" ++ name

/-- The observable outcome of `engine.generate`: the returned tensor, the
files written by `save_image` (path and per-sample value, in call
order), and the emitted log entries. -/
structure GenResult where
  returned : List ℚ
  writes : List (String × ℚ)
  logs : List LogEvent

/-- `engine.generate`: runs `G` over every batch, concatenates the
outputs in order, optionally logs a grid keyed by `epoch`, and when
`save_images` is set rebinds `fake_images` to the [0,1]-rescaled tensor
and writes one file per `zip(data_loader.dataset.src_images, fake_images)`
pair, named by the basename of the source filename; finally returns
(the possibly rebound) `fake_images`. -/
def generate (env : GenEnv) (loader : List GenBatch) (epoch : Nat)
    (save_images : Bool) (has_log_writer : Bool) (src_images : List String)
    (output_dir : String) : GenResult :=
  let fake_images := (loader.map fun b => List.zipWith env.Gs b.src b.cond).flatten
  let logs : List LogEvent :=
    if has_log_writer then [.image "images/test_gen" epoch] else []
  if save_images then
    let fake_images2 := fake_images.map fun x => (x + 1.0) * 0.5
    { returned := fake_images2
      writes := (src_images.zip fake_images2).map
        fun p => (path_join output_dir (basename p.1), p.2)
      logs := logs }
  else
    { returned := fake_images, writes := [], logs := logs }

/-- The raw concatenated generator output of `generate`, before any
rescaling — the quantity the spec says is returned. -/
def raw_generated (env : GenEnv) (loader : List GenBatch) : List ℚ :=
  (loader.map fun b => List.zipWith env.Gs b.src b.cond).flatten

/-- Concrete training environment over `ℚ` used to exercise the model. -/
def envW : TrainEnv ℚ :=
  ⟨fun a b => a + b, fun a c => a + c, fun x c e => x + c + e, 0,
   fun p lbl => if lbl then p else p + 1, fun a b => a - b, fun a b => a * b⟩

/-- Concrete configuration bundle. -/
def argsW : Args := ⟨3, 10, 1, 1, 2, 3⟩

/-- Concrete training state: one parameter per network, `requires_grad`
initially set, learning rate 1, empty log. -/
def stW : TState ℚ :=
  ⟨⟨[true], false⟩, ⟨[true], false⟩, ⟨0, 0, 1⟩, ⟨0, 0, 1⟩, ⟨0⟩, ⟨0⟩, []⟩

/-- Concrete training batch. -/
def batchW : BatchT ℚ := ⟨1, 2, 3⟩

/-- Concrete inference environment over `ℚ`. -/
def genEnvW : GenEnv :=
  ⟨fun s c => s + c, fun a b => a.sum - b.sum, fun a b => a - b⟩

theorem train_step_snd {V : Type} (env : TrainEnv V) (args : Args)
    (st : TState V) (b : BatchT V) :
    (train_step env args st b).2 =
      { st with
        Dnet := set_param_requires_grad (set_param_requires_grad st.Dnet true) false
        optimD := opt_step (zero_grad st.optimD)
        optimG := opt_step (zero_grad st.optimG) } := rfl

theorem train_step_fst {V : Type} (env : TrainEnv V) (args : Args)
    (st : TState V) (b : BatchT V) :
    (train_step env args st b).1 = train_losses env args b := rfl

/-- Claim C1 (counterexample): after one full alternating
discriminator-then-generator update on a concrete batch, it is not the
case that every parameter of D has `requires_grad = true` — the
generator sub-step's `set_requires_grad(D, False)` is the last toggle. -/
theorem C1_counterexample :
    ¬ (∀ flag ∈ ((train_step envW argsW stW batchW).2).Dnet.paramsRG,
        flag = true) := by
  intro h
  have hx : ((train_step envW argsW stW batchW).2).Dnet.paramsRG = [false] := rfl
  rw [hx] at h
  exact Bool.false_ne_true (h false (List.mem_singleton.mpr rfl))

/-- Claim C1 (amended): after every completed call of the Training Step
Driver, every parameter of the discriminator D has `requires_grad` set
to `false` — D is left frozen after the call; the next call's
discriminator sub-step re-enables it. -/
theorem C1_after_step_frozen {V : Type} (env : TrainEnv V) (args : Args)
    (st : TState V) (b : BatchT V) :
    ((train_step env args st b).2).Dnet.paramsRG =
      st.Dnet.paramsRG.map fun _ => false := by
  rw [train_step_snd]
  simp [set_param_requires_grad, List.map_map]

/-- Claim C3: in every training step the discriminator loss is the mean
of the adversarial loss on D at (source ⧺ generated output, label
false) — computed through a gradient-detached input, so it carries no
gradient path to G — and the adversarial loss on D at (source ⧺ real
target, label true); and the generator loss is the adversarial loss with
label true on the non-detached generated output (which does carry a
gradient path to G), plus the perceptual loss scaled by `lambda_VGG`,
plus the pixel loss scaled by `lambda_L1`. -/
theorem C3_loss_composition {V : Type} (env : TrainEnv V) (args : Args)
    (st : TState V) (b : BatchT V) :
    ((train_step env args st b).1).loss_D.val =
      (env.adv (env.Df (env.catv b.real_A (env.Gf b.real_A b.cond)) b.cond env.emb) false
        + env.adv (env.Df (env.catv b.real_A b.real_B) b.cond env.emb) true) / 2
    ∧ ((train_step env args st b).1).loss_D.gradG = false
    ∧ ((train_step env args st b).1).loss_G.val =
      env.adv (env.Df (env.catv b.real_A (env.Gf b.real_A b.cond)) b.cond env.emb) true
        + env.vggv (env.Gf b.real_A b.cond) b.real_B * args.lambda_VGG
        + env.l1v (env.Gf b.real_A b.cond) b.real_B * args.lambda_L1
    ∧ ((train_step env args st b).1).loss_G_GAN.gradG = true := by
  refine ⟨?_, rfl, rfl, rfl⟩
  show (env.adv (env.Df (env.catv b.real_A (env.Gf b.real_A b.cond)) b.cond env.emb) false
        + env.adv (env.Df (env.catv b.real_A b.real_B) b.cond env.emb) true) * (0.5 : ℚ) = _
  rw [show (0.5 : ℚ) = 1 / 2 by norm_num]
  ring

theorem epoch_iter_log {V : Type} (env : TrainEnv V) (args : Args)
    (epoch T : Nat) (st : TState V) (p : Nat × BatchT V) :
    (epoch_iter env args epoch T st p).log =
      st.log ++ spec_iter_logs env args epoch T st.optimG.lr st.optimD.lr p := by
  simp only [epoch_iter, spec_iter_logs, train_step_snd, train_step_fst,
    global_step]
  split <;> split <;> simp [opt_step, zero_grad, List.append_assoc]

theorem epoch_iter_optimG {V : Type} (env : TrainEnv V) (args : Args)
    (epoch T : Nat) (st : TState V) (p : Nat × BatchT V) :
    (epoch_iter env args epoch T st p).optimG = opt_step (zero_grad st.optimG) := by
  simp only [epoch_iter, train_step_snd]
  split <;> split <;> rfl

theorem epoch_iter_optimD {V : Type} (env : TrainEnv V) (args : Args)
    (epoch T : Nat) (st : TState V) (p : Nat × BatchT V) :
    (epoch_iter env args epoch T st p).optimD = opt_step (zero_grad st.optimD) := by
  simp only [epoch_iter, train_step_snd]
  split <;> split <;> rfl

theorem epoch_iter_schedG {V : Type} (env : TrainEnv V) (args : Args)
    (epoch T : Nat) (st : TState V) (p : Nat × BatchT V) :
    (epoch_iter env args epoch T st p).schedG = st.schedG := by
  simp only [epoch_iter, train_step_snd]
  split <;> split <;> rfl

theorem epoch_iter_schedD {V : Type} (env : TrainEnv V) (args : Args)
    (epoch T : Nat) (st : TState V) (p : Nat × BatchT V) :
    (epoch_iter env args epoch T st p).schedD = st.schedD := by
  simp only [epoch_iter, train_step_snd]
  split <;> split <;> rfl

theorem foldl_epoch_iter_schedG {V : Type} (env : TrainEnv V) (args : Args)
    (epoch T : Nat) (l : List (Nat × BatchT V)) (st : TState V) :
    (l.foldl (epoch_iter env args epoch T) st).schedG = st.schedG := by
  induction l generalizing st with
  | nil => rfl
  | cons p l ih => rw [List.foldl_cons, ih, epoch_iter_schedG]

theorem foldl_epoch_iter_schedD {V : Type} (env : TrainEnv V) (args : Args)
    (epoch T : Nat) (l : List (Nat × BatchT V)) (st : TState V) :
    (l.foldl (epoch_iter env args epoch T) st).schedD = st.schedD := by
  induction l generalizing st with
  | nil => rfl
  | cons p l ih => rw [List.foldl_cons, ih, epoch_iter_schedD]

theorem epoch_setup_schedG_of_gt {V : Type} (st : TState V) (epoch : Nat)
    (args : Args) (h : epoch > args.n_epochs) :
    (epoch_setup st epoch args).schedG.stepCount = st.schedG.stepCount + 1 := by
  simp [epoch_setup, sched_step, h]

theorem epoch_setup_schedD_of_gt {V : Type} (st : TState V) (epoch : Nat)
    (args : Args) (h : epoch > args.n_epochs) :
    (epoch_setup st epoch args).schedD.stepCount = st.schedD.stepCount + 1 := by
  simp [epoch_setup, sched_step, h]

theorem epoch_setup_sched_of_le {V : Type} (st : TState V) (epoch : Nat)
    (args : Args) (h : epoch ≤ args.n_epochs) :
    (epoch_setup st epoch args).schedG = st.schedG
    ∧ (epoch_setup st epoch args).schedD = st.schedD := by
  have h' : ¬ epoch > args.n_epochs := Nat.not_lt.mpr h
  constructor <;> simp [epoch_setup, h']

/-- Claim C4: for every epoch at most the warm-up threshold `n_epochs`
the orchestrator advances neither scheduler; for every epoch strictly
greater it advances both by exactly one step, already during the
pre-loop setup — and no loop iteration ever touches a scheduler, so the
advancement happens before any batch is processed. -/
theorem C4_scheduler_gating {V : Type} (env : TrainEnv V) (args : Args)
    (st : TState V) (loader : List (BatchT V)) (epoch : Nat) :
    (epoch ≤ args.n_epochs →
      (train_one_epoch env args st loader epoch).schedG.stepCount = st.schedG.stepCount
      ∧ (train_one_epoch env args st loader epoch).schedD.stepCount = st.schedD.stepCount)
    ∧ (epoch > args.n_epochs →
      (epoch_setup st epoch args).schedG.stepCount = st.schedG.stepCount + 1
      ∧ (epoch_setup st epoch args).schedD.stepCount = st.schedD.stepCount + 1
      ∧ (train_one_epoch env args st loader epoch).schedG.stepCount = st.schedG.stepCount + 1
      ∧ (train_one_epoch env args st loader epoch).schedD.stepCount = st.schedD.stepCount + 1)
    ∧ (∀ (s : TState V) (p : Nat × BatchT V),
        (epoch_iter env args epoch loader.length s p).schedG = s.schedG
        ∧ (epoch_iter env args epoch loader.length s p).schedD = s.schedD) := by
  have hG : (train_one_epoch env args st loader epoch).schedG =
      (epoch_setup st epoch args).schedG :=
    foldl_epoch_iter_schedG env args epoch loader.length _ _
  have hD : (train_one_epoch env args st loader epoch).schedD =
      (epoch_setup st epoch args).schedD :=
    foldl_epoch_iter_schedD env args epoch loader.length _ _
  refine ⟨fun h => ?_, fun h => ?_, fun s p =>
    ⟨epoch_iter_schedG env args epoch loader.length s p,
     epoch_iter_schedD env args epoch loader.length s p⟩⟩
  · rw [hG, hD, (epoch_setup_sched_of_le st epoch args h).1,
      (epoch_setup_sched_of_le st epoch args h).2]
    exact ⟨rfl, rfl⟩
  · rw [hG, hD]
    exact ⟨epoch_setup_schedG_of_gt st epoch args h,
      epoch_setup_schedD_of_gt st epoch args h,
      epoch_setup_schedG_of_gt st epoch args h,
      epoch_setup_schedD_of_gt st epoch args h⟩

/-- Claim C4 witness at concrete inputs: with warm-up threshold 3,
epoch 2 advances neither scheduler and epoch 5 advances both by one. -/
theorem C4_scheduler_gating_witness :
    (train_one_epoch envW argsW stW [batchW] 2).schedG.stepCount = stW.schedG.stepCount
    ∧ (train_one_epoch envW argsW stW [batchW] 5).schedG.stepCount = stW.schedG.stepCount + 1
    ∧ (train_one_epoch envW argsW stW [batchW] 5).schedD.stepCount = stW.schedD.stepCount + 1 :=
  ⟨((C4_scheduler_gating envW argsW stW [batchW] 2).1 (by decide)).1,
   ((C4_scheduler_gating envW argsW stW [batchW] 5).2.1 (by decide)).2.2.1,
   ((C4_scheduler_gating envW argsW stW [batchW] 5).2.1 (by decide)).2.2.2⟩

theorem spec_iter_logs_step {V : Type} (env : TrainEnv V) (args : Args)
    (epoch T : Nat) (lrG lrD : ℚ) (i : Nat) (b : BatchT V) :
    ∀ ev ∈ spec_iter_logs env args epoch T lrG lrD (i, b),
      LogEvent.stepOf ev = (epoch - 1) * T + i := by
  intro ev hev
  simp only [spec_iter_logs] at hev
  rcases List.mem_append.mp hev with h | h
  · split at h
    · simp only [scalar_block, List.mem_cons, List.not_mem_nil, or_false] at h
      rcases h with h | h | h | h | h | h | h <;> (subst h; rfl)
    · exact absurd h (List.not_mem_nil ev)
  · split at h
    · simp only [image_block, List.mem_cons, List.not_mem_nil, or_false] at h
      rcases h with h | h | h <;> (subst h; rfl)
    · exact absurd h (List.not_mem_nil ev)

/-- Claim C5: every log entry a loop iteration adds is keyed by the
global step `(epoch - 1) * T + iter`; the model's `global_step` is
exactly that formula; and global steps are strictly increasing in
lexicographic (epoch, batch) order across a run of `T`-batch epochs. -/
theorem C5_global_step {V : Type} (env : TrainEnv V) (args : Args)
    (epoch T : Nat) :
    (∀ (st : TState V) (i : Nat) (b : BatchT V),
      ∀ ev ∈ (epoch_iter env args epoch T st (i, b)).log,
        ev ∈ st.log ∨ LogEvent.stepOf ev = (epoch - 1) * T + i)
    ∧ (∀ i, global_step epoch T i = (epoch - 1) * T + i)
    ∧ (∀ e e' i i', 1 ≤ e → 1 ≤ i → i ≤ T → 1 ≤ i' → i' ≤ T →
        (e < e' ∨ (e = e' ∧ i < i')) →
        global_step e T i < global_step e' T i') := by
  refine ⟨fun st i b ev hev => ?_, fun i => rfl, fun e e' i i' he hi hiT hi' hi'T hlt => ?_⟩
  · rw [epoch_iter_log] at hev
    rcases List.mem_append.mp hev with h | h
    · exact Or.inl h
    · exact Or.inr (spec_iter_logs_step env args epoch T _ _ i b ev h)
  · rcases hlt with h | ⟨rfl, h⟩
    · have h1 : global_step e T i ≤ e * T := by
        have : (e - 1) * T + i ≤ (e - 1) * T + T := Nat.add_le_add_left hiT _
        calc global_step e T i ≤ (e - 1) * T + T := this
          _ = (e - 1 + 1) * T := (Nat.succ_mul _ _).symm
          _ = e * T := by rw [Nat.sub_add_cancel he]
      have h2 : e * T < global_step e' T i' := by
        have hle : e ≤ e' - 1 := Nat.le_sub_one_of_lt h
        have : e * T ≤ (e' - 1) * T := Nat.mul_le_mul_right T hle
        calc e * T < e * T + i' := Nat.lt_add_of_pos_right hi'
          _ ≤ (e' - 1) * T + i' := Nat.add_le_add_right this i'
      exact Nat.lt_of_le_of_lt h1 h2
    · exact Nat.add_lt_add_left h _

/-- Claim C5 witness at concrete inputs: an image event added by a
concrete loop iteration is keyed by the global step, and with 3-batch
epochs global step (1, 3) precedes (2, 1). -/
theorem C5_global_step_witness :
    (LogEvent.image "images/gen" 1 ∈ stW.log
      ∨ LogEvent.stepOf (LogEvent.image "images/gen" 1) = (1 - 1) * 3 + 1)
    ∧ global_step 1 3 3 < global_step 2 3 1 :=
  ⟨(C5_global_step envW ⟨3, 10, 5, 1, 2, 3⟩ 1 3).1 stW 1 batchW
      (LogEvent.image "images/gen" 1)
      (by
        rw [epoch_iter_log]
        simp [spec_iter_logs, scalar_block, image_block, stW]),
   (C5_global_step envW argsW 2 3).2.2 1 2 3 1 (by decide) (by decide)
     (by decide) (by decide) (by decide) (Or.inl (by decide))⟩

theorem epoch_setup_log {V : Type} (st : TState V) (epoch : Nat) (args : Args) :
    (epoch_setup st epoch args).log = st.log := by
  simp only [epoch_setup]
  split <;> rfl

theorem epoch_setup_optimG {V : Type} (st : TState V) (epoch : Nat) (args : Args) :
    (epoch_setup st epoch args).optimG = st.optimG := by
  simp only [epoch_setup]
  split <;> rfl

theorem epoch_setup_optimD {V : Type} (st : TState V) (epoch : Nat) (args : Args) :
    (epoch_setup st epoch args).optimD = st.optimD := by
  simp only [epoch_setup]
  split <;> rfl

theorem foldl_epoch_iter_log {V : Type} (env : TrainEnv V) (args : Args)
    (epoch T : Nat) (l : List (Nat × BatchT V)) (st : TState V) :
    (l.foldl (epoch_iter env args epoch T) st).log =
      st.log ++ (l.map (spec_iter_logs env args epoch T st.optimG.lr st.optimD.lr)).flatten := by
  induction l generalizing st with
  | nil => simp
  | cons p l ih =>
    rw [List.foldl_cons, ih, epoch_iter_log]
    have hG : (epoch_iter env args epoch T st p).optimG.lr = st.optimG.lr := by
      rw [epoch_iter_optimG]; rfl
    have hD : (epoch_iter env args epoch T st p).optimD.lr = st.optimD.lr := by
      rw [epoch_iter_optimD]; rfl
    rw [hG, hD, List.map_cons, List.flatten_cons, List.append_assoc]

/-- Claim C6: during an epoch, the scalar-set entries (five losses and
both learning rates) are appended to the sink keyed by the global step
exactly on the batches whose 1-indexed counter is a multiple of
`log_freq`, plus unconditionally on the final batch (this is what
`spec_epoch_logs` says, and the orchestrator's log is exactly the old
log followed by it); in particular a 1-batch epoch with `log_freq = 1`
and `display_freq = 1` appends exactly one scalar-set block and one
image-grid block, both keyed by global step `(epoch - 1) * 1 + 1`. -/
theorem C6_logging_cadence {V : Type} (env : TrainEnv V) (args : Args)
    (st : TState V) (loader : List (BatchT V)) (epoch : Nat)
    (_hl : 1 ≤ args.log_freq) (_hd : 1 ≤ args.display_freq) :
    (train_one_epoch env args st loader epoch).log =
      st.log ++ spec_epoch_logs env args epoch st.optimG.lr st.optimD.lr loader
    ∧ (args.log_freq = 1 → args.display_freq = 1 → ∀ b : BatchT V,
        (train_one_epoch env args st [b] epoch).log =
          st.log ++ (scalar_block (train_losses env args b) st.optimG.lr st.optimD.lr
              ((epoch - 1) * 1 + 1)
            ++ image_block ((epoch - 1) * 1 + 1))) := by
  constructor
  · unfold train_one_epoch spec_epoch_logs
    rw [foldl_epoch_iter_log, epoch_setup_log, epoch_setup_optimG, epoch_setup_optimD]
  · intro h1 h2 b
    unfold train_one_epoch
    rw [foldl_epoch_iter_log, epoch_setup_log, epoch_setup_optimG, epoch_setup_optimD]
    simp [spec_iter_logs, h1, h2, List.enumFrom]

/-- Claim C6 witness at concrete inputs: a 1-batch epoch 5 with
`log_freq = display_freq = 1` appends exactly one scalar block and one
image block, keyed by global step `(5 - 1) * 1 + 1`. -/
theorem C6_logging_cadence_witness :
    (train_one_epoch envW argsW stW [batchW] 5).log =
      stW.log ++ (scalar_block (train_losses envW argsW batchW) stW.optimG.lr stW.optimD.lr
          ((5 - 1) * 1 + 1)
        ++ image_block ((5 - 1) * 1 + 1)) :=
  (C6_logging_cadence envW argsW stW [batchW] 5 (by decide) (by decide)).2 rfl rfl batchW

/-- Claim C10: on an empty training batch source the orchestrator call
returns normally, leaves the log and both optimizers untouched, does not
toggle any `requires_grad` flag, still sets G and D to training mode,
and still advances both schedulers exactly when the epoch exceeds the
warm-up threshold. -/
theorem C10_empty_loader {V : Type} (env : TrainEnv V) (args : Args)
    (st : TState V) (epoch : Nat) :
    (train_one_epoch env args st [] epoch).log = st.log
    ∧ (train_one_epoch env args st [] epoch).optimG = st.optimG
    ∧ (train_one_epoch env args st [] epoch).optimD = st.optimD
    ∧ (train_one_epoch env args st [] epoch).Gnet.paramsRG = st.Gnet.paramsRG
    ∧ (train_one_epoch env args st [] epoch).Dnet.paramsRG = st.Dnet.paramsRG
    ∧ (train_one_epoch env args st [] epoch).Gnet.training = true
    ∧ (train_one_epoch env args st [] epoch).Dnet.training = true
    ∧ (epoch > args.n_epochs →
        (train_one_epoch env args st [] epoch).schedG.stepCount = st.schedG.stepCount + 1
        ∧ (train_one_epoch env args st [] epoch).schedD.stepCount = st.schedD.stepCount + 1)
    ∧ (epoch ≤ args.n_epochs →
        (train_one_epoch env args st [] epoch).schedG.stepCount = st.schedG.stepCount
        ∧ (train_one_epoch env args st [] epoch).schedD.stepCount = st.schedD.stepCount) := by
  have he : train_one_epoch env args st [] epoch = epoch_setup st epoch args := rfl
  rw [he]
  by_cases h : epoch > args.n_epochs
  · refine ⟨?_, ?_, ?_, ?_, ?_, ?_, ?_, fun _ => ⟨?_, ?_⟩, fun h' => absurd h (Nat.not_lt.mpr h')⟩ <;>
      simp [epoch_setup, sched_step, h]
  · refine ⟨?_, ?_, ?_, ?_, ?_, ?_, ?_, fun h' => absurd h' h, fun _ => ⟨?_, ?_⟩⟩ <;>
      simp [epoch_setup, sched_step, h]

/-- Claim C10 witness at concrete inputs: an empty 5th epoch with
warm-up threshold 3 leaves the log unchanged and advances the G
scheduler once. -/
theorem C10_empty_loader_witness :
    (train_one_epoch envW argsW stW [] 5).log = stW.log
    ∧ (train_one_epoch envW argsW stW [] 5).Gnet.training = true
    ∧ (train_one_epoch envW argsW stW [] 5).schedG.stepCount = stW.schedG.stepCount + 1 :=
  ⟨(C10_empty_loader envW argsW stW 5).1,
   (C10_empty_loader envW argsW stW 5).2.2.2.2.2.1,
   ((C10_empty_loader envW argsW stW 5).2.2.2.2.2.2.2.1 (by decide)).1⟩

/-- Claim C2 (counterexample): with the persistence flag set, the value
returned by the Generation Driver at a concrete one-sample input is the
[0,1]-rescaled tensor, not the raw [-1,1]-scaled concatenation of the
generator outputs. -/
theorem C2_counterexample :
    (generate genEnvW [⟨[0], [0]⟩] 1 true false [] "out").returned ≠
      raw_generated genEnvW [⟨[0], [0]⟩] := by
  intro h
  have h1 : (generate genEnvW [⟨[0], [0]⟩] 1 true false [] "out").returned =
      [(0.5 : ℚ)] := by
    simp [generate, raw_generated, genEnvW]
    norm_num
  have h2 : raw_generated genEnvW [⟨[0], [0]⟩] = [(0 : ℚ)] := by
    simp [raw_generated, genEnvW]
  rw [h1, h2] at h
  have : (0.5 : ℚ) = 0 := List.head_eq_of_cons_eq h
  norm_num at this

/-- Claim C2 (amended): the Generation Driver's return value is the
concatenation, in iteration order, of the generator outputs still
scaled to [-1,1] when `save_images` is false; when `save_images` is
true, the returned tensor is that concatenation rescaled to [0,1] by
`(x + 1) * 0.5`, because the rescaling rebinds the variable that is
returned. -/
theorem C2_returned_value (env : GenEnv) (loader : List GenBatch) (epoch : Nat)
    (save_images has_log_writer : Bool) (src_images : List String)
    (output_dir : String) :
    (generate env loader epoch save_images has_log_writer src_images
        output_dir).returned =
      if save_images then
        (raw_generated env loader).map fun x => (x + 1.0) * 0.5
      else raw_generated env loader := by
  cases save_images <;> simp [generate, raw_generated]

/-- Claim C7: the Evaluation Driver's per-sample error array has one
entry per dataset sample (its length is the total dataset size, given
that the batch source covers the dataset and batch tensors share the
leading dimension), the below-threshold count it reports is the number
of per-sample errors strictly less than 20, and it returns exactly the
pair (aggregate pixel error, aggregate CRI error) to the caller. -/
theorem C7_evaluation (env : GenEnv) (loader : List EvalBatch)
    (dataset_len epoch : Nat)
    (hb : ∀ b ∈ loader, b.src.length = b.cond.length ∧ b.src.length = b.dst.length)
    (hd : dataset_len = (loader.map fun b => b.src.length).sum) :
    (evaluate env loader dataset_len epoch).cri_error_array.length = dataset_len
    ∧ (evaluate env loader dataset_len epoch).below_count =
        (evaluate env loader dataset_len epoch).cri_error_array.countP
          (fun x => decide (x < 20))
    ∧ (evaluate env loader dataset_len epoch).returned =
        (env.mean_pixel_loss (eval_fake_images env loader) (eval_true_images loader),
         (mean_absolute_cri_error env (eval_fake_images env loader)
           (eval_true_images loader)).1)
    ∧ (evaluate env loader dataset_len epoch).total_reported = dataset_len := by
  have hfake : (eval_fake_images env loader).length =
      (loader.map fun b => b.src.length).sum := by
    rw [eval_fake_images, List.length_map, List.length_flatten, List.map_map]
    refine congrArg List.sum (List.map_congr_left fun b h => ?_)
    simp [List.length_zipWith, (hb b h).1]
  have htrue : (eval_true_images loader).length =
      (loader.map fun b => b.src.length).sum := by
    rw [eval_true_images, List.length_map, List.length_flatten, List.map_map]
    refine congrArg List.sum (List.map_congr_left fun b h => ?_)
    simp [(hb b h).2]
  refine ⟨?_, rfl, rfl, rfl⟩
  show (mean_absolute_cri_error env (eval_fake_images env loader)
      (eval_true_images loader)).2.length = dataset_len
  rw [mean_absolute_cri_error]
  simp only [List.length_zipWith, hfake, htrue, hd, Nat.min_self]

/-- Claim C7 witness at a concrete one-batch, one-sample input. -/
theorem C7_evaluation_witness :
    (evaluate genEnvW [⟨[0], [0], [0]⟩] 1 4).cri_error_array.length = 1
    ∧ (evaluate genEnvW [⟨[0], [0], [0]⟩] 1 4).returned =
        (genEnvW.mean_pixel_loss (eval_fake_images genEnvW [⟨[0], [0], [0]⟩])
          (eval_true_images [⟨[0], [0], [0]⟩]),
         (mean_absolute_cri_error genEnvW (eval_fake_images genEnvW [⟨[0], [0], [0]⟩])
           (eval_true_images [⟨[0], [0], [0]⟩])).1) :=
  ⟨(C7_evaluation genEnvW [⟨[0], [0], [0]⟩] 1 4
      (by intro b hb; rw [List.mem_singleton] at hb; subst hb; exact ⟨rfl, rfl⟩)
      rfl).1,
   (C7_evaluation genEnvW [⟨[0], [0], [0]⟩] 1 4
      (by intro b hb; rw [List.mem_singleton] at hb; subst hb; exact ⟨rfl, rfl⟩)
      rfl).2.2.1⟩

/-- Claim C8: when persistence is enabled and the filename list has one
entry per generated sample, the Generation Driver performs exactly one
file write per generated sample, and the k-th write's path is the
output directory joined with the base name of the k-th source
filename. -/
theorem C8_persistence (env : GenEnv) (loader : List GenBatch) (epoch : Nat)
    (has_log_writer : Bool) (src_images : List String) (output_dir : String)
    (h : src_images.length = (raw_generated env loader).length) :
    (generate env loader epoch true has_log_writer src_images
        output_dir).writes.length = (raw_generated env loader).length
    ∧ (generate env loader epoch true has_log_writer src_images
        output_dir).writes.map Prod.fst =
      src_images.map fun fn => path_join output_dir (basename fn) := by
  have hz : (src_images.zip
      ((raw_generated env loader).map fun x => (x + 1.0) * 0.5)).map Prod.fst =
      src_images := by
    refine List.map_fst_zip _ _ ?_
    rw [List.length_map, ← h]
  constructor
  · show (List.map _ (src_images.zip
        ((raw_generated env loader).map fun x => (x + 1.0) * 0.5))).length = _
    rw [List.length_map, List.length_zip, List.length_map, ← h, Nat.min_self]
  · show (List.map (fun p : String × ℚ => (path_join output_dir (basename p.1), p.2))
        (src_images.zip ((raw_generated env loader).map fun x => (x + 1.0) * 0.5))).map
          Prod.fst = _
    rw [List.map_map]
    have hcomp : (Prod.fst ∘ fun p : String × ℚ =>
        (path_join output_dir (basename p.1), p.2)) =
        (fun fn => path_join output_dir (basename fn)) ∘ Prod.fst := rfl
    rw [hcomp, ← List.map_map, hz]

/-- Claim C8 witness at a concrete input: one sample, one filename. -/
theorem C8_persistence_witness :
    (generate genEnvW [⟨[0], [0]⟩] 1 true false ["imgs/a.png"] "out").writes.length = 1
    ∧ (generate genEnvW [⟨[0], [0]⟩] 1 true false ["imgs/a.png"] "out").writes.map
        Prod.fst = ["imgs/a.png"].map fun fn => path_join "out" (basename fn) :=
  ⟨(C8_persistence genEnvW [⟨[0], [0]⟩] 1 false ["imgs/a.png"] "out" rfl).1,
   (C8_persistence genEnvW [⟨[0], [0]⟩] 1 false ["imgs/a.png"] "out" rfl).2⟩

/-- Claim C9: the Parameter-Freeze Controller, applied to a list of
networks with nullable entries, is total (it cannot raise), leaves null
entries null and in place, and sets the `requires_grad` flag of every
parameter of every non-null entry to the given flag. -/
theorem C9_freeze_nullable (nets : List (Option Net)) (rg : Bool) :
    (set_requires_grad (.many nets) rg).length = nets.length
    ∧ (∀ i : Nat, (set_requires_grad (.many nets) rg)[i]? =
        (nets[i]?).map (Option.map fun n => set_param_requires_grad n rg))
    ∧ (∀ o ∈ set_requires_grad (.many nets) rg, ∀ n, o = some n →
        ∀ flag ∈ n.paramsRG, flag = rg) := by
  refine ⟨by simp [set_requires_grad, NetsArg.toList],
    fun i => by simp [set_requires_grad, NetsArg.toList, List.getElem?_map],
    fun o ho n hn flag hflag => ?_⟩
  simp only [set_requires_grad, NetsArg.toList, List.mem_map] at ho
  rcases ho with ⟨o', _, rfl⟩
  rcases o' with _ | n'
  · exact absurd hn (by simp)
  · have hn2 : (some (set_param_requires_grad n' rg) : Option Net) = some n := hn
    have hn3 : n = set_param_requires_grad n' rg := (Option.some_inj.mp hn2).symm
    subst hn3
    simp only [set_param_requires_grad, List.mem_map] at hflag
    rcases hflag with ⟨_, _, rfl⟩
    rfl

/-- Claim C9 witness at a concrete input: a list holding a null entry
and a two-parameter network, frozen with flag `false`. -/
theorem C9_freeze_nullable_witness :
    (set_requires_grad (.many [none, some ⟨[true, false], true⟩]) false).length = 2
    ∧ (∀ flag ∈ (Net.mk [false, false] true).paramsRG, flag = false) :=
  ⟨(C9_freeze_nullable [none, some ⟨[true, false], true⟩] false).1,
   (C9_freeze_nullable [none, some ⟨[true, false], true⟩] false).2.2
     (some ⟨[false, false], true⟩) (by decide) ⟨[false, false], true⟩ rfl⟩

end Engine
